import Mathlib

/-!
Verification of `scripts/create_2025_forecast.py`.

The script loads a workbook sheet into a table, checks required columns,
cleans rows (dropping missing date/depot, coercing dates and volumes),
detects depots present in 2023 but absent in 2024, filters to 2024 rows,
shifts dates to 2025 (dropping Feb 29), scales volumes by per-row factors,
sorts and writes the forecast, and prints summary statistics.

This file is a shallow embedding of that pipeline: pandas/numpy operations
are modelled by their documented semantics on explicit Lean data (lists of
rows, `Option` for nullable cells, `ℚ` for numeric values, a pure factor
stream for the seeded random generator).
-/

namespace Forecast2025

/-- A calendar date, the date part of a pandas `Timestamp`. -/
structure Date where
  year : Nat
  month : Nat
  day : Nat
deriving DecidableEq

/-- Gregorian leap-year rule, as used by `pd.Timestamp` validity. -/
def isLeapYear (y : Nat) : Bool :=
  y % 4 == 0 && (y % 100 != 0 || y % 400 == 0)

/-- Number of days in a month of a given year. -/
def daysInMonth (y m : Nat) : Nat :=
  if m = 2 then (if isLeapYear y then 29 else 28)
  else if m = 4 ∨ m = 6 ∨ m = 9 ∨ m = 11 then 30
  else 31

/-- Whether `pd.Timestamp(y, m, d)` succeeds (no `ValueError`):
the triple is a valid calendar date. -/
def timestampValid (y m d : Nat) : Bool :=
  1 ≤ m && m ≤ 12 && 1 ≤ d && d ≤ daysInMonth y m

/-- A date is valid for its own year. -/
def Date.valid (dt : Date) : Bool :=
  timestampValid dt.year dt.month dt.day

/-- A raw date cell of the loaded sheet: NaN, a non-null but unparseable
value, or a parseable date. -/
inductive DateCell where
  | missing
  | unparseable
  | value (d : Date)
deriving DecidableEq

/-- A raw volume cell: NaN, a non-numeric value, or a number. -/
inductive VolumeCell where
  | missing
  | nonNumeric
  | numeric (q : ℚ)
deriving DecidableEq

/-- One raw row of the loaded sheet restricted to the working columns
(Deposit ID when present, Deposit Date, Depo, Volume (oz)). -/
structure RawRow where
  depositId : Option String
  date : DateCell
  depot : Option String
  volume : VolumeCell
deriving DecidableEq

/-- One cleaned row: date parsed, depot non-null, volume numeric. -/
structure CleanRow where
  depositId : Option String
  date : Date
  depot : String
  volume : ℚ
deriving DecidableEq

/-- Whether the raw date cell is NaN for the purpose of `dropna`
(line 97 runs before date parsing, so only a missing cell counts). -/
def DateCell.isNaN : DateCell → Bool
  | .missing => true
  | _ => false

/-- Effect of `pd.to_datetime(col, errors=coerce)` on one cell: a
parseable date is kept, anything else becomes NaT (`none`). -/
def DateCell.toDatetime : DateCell → Option Date
  | .value d => some d
  | _ => none

/-- Effect of `pd.to_numeric(col, errors=coerce).fillna(0)` on one cell:
numbers kept, NaN and non-numeric values coerced to 0. -/
def VolumeCell.toNumericFilled : VolumeCell → ℚ
  | .numeric q => q
  | _ => 0

/-- Line 97: `work.dropna(subset=[DATE_COL, DEPOT_COL])`. -/
def dropnaDateDepot (rows : List RawRow) : List RawRow :=
  rows.filter fun r => !r.date.isNaN && r.depot.isSome

/-- A row after line 103 (`work[DATE_COL] = pd.to_datetime(...)`):
the date column now holds NaT or a parsed date. -/
structure ParsedRow where
  depositId : Option String
  date : Option Date
  depot : Option String
  volume : VolumeCell
deriving DecidableEq

/-- Line 103: parse the date column of every row. -/
def toDatetimeStep (rows : List RawRow) : List ParsedRow :=
  rows.map fun r => ⟨r.depositId, r.date.toDatetime, r.depot, r.volume⟩

/-- Line 104: `work.dropna(subset=[DATE_COL])`, removing NaT dates. -/
def dropnaDate (rows : List ParsedRow) : List ParsedRow :=
  rows.filter fun r => r.date.isSome

/-- Lines 95-107: the whole cleaning stage. The final `map` realises the
volume coercion of line 107 and materialises the non-null fields
(the `getD` defaults are never reached on rows surviving the filters). -/
def cleanRows (rows : List RawRow) : List CleanRow :=
  (dropnaDate (toDatetimeStep (dropnaDateDepot rows))).map fun r =>
    ⟨r.depositId, r.date.getD ⟨0, 0, 0⟩, r.depot.getD "", r.volume.toNumericFilled⟩

/-- Specification-side restatement of cleaning: keep exactly the rows with
a parseable date and a non-null depot, coercing their volume. -/
def cleanRowsSpec (rows : List RawRow) : List CleanRow :=
  rows.filterMap fun r =>
    match r.date, r.depot with
    | .value d, some s => some ⟨r.depositId, d, s, r.volume.toNumericFilled⟩
    | _, _ => none

/-- Lines 145-156: shift a (possibly null) date to 2025, dropping Feb 29
and any month/day pair with no valid 2025 date. -/
def shift_to_2025 (date_val : Option Date) : Option Date :=
  match date_val with
  | none => none
  | some dv =>
    if dv.month = 2 ∧ dv.day = 29 then none
    else if timestampValid 2025 dv.month dv.day then some ⟨2025, dv.month, dv.day⟩
    else none

/-- The year attribute derived on line 110 (`work['Year']`). -/
def CleanRow.yearOf (r : CleanRow) : Nat := r.date.year

/-- Lines 118-119: the set of depots with at least one cleaned row in a
given year (`set(work[work['Year'] == y][DEPOT_COL].unique())`). -/
def depotsInYear (work : List CleanRow) (y : Nat) : Finset String :=
  ((work.filter fun r => r.date.year == y).map fun r => r.depot).toFinset

/-- Line 120: depots active in 2023 but with zero records in 2024. -/
def missing_depots (work : List CleanRow) : Finset String :=
  depotsInYear work 2023 \ depotsInYear work 2024

/-- Line 132: `work[work['Year'] == 2024]`. -/
def filter2024 (work : List CleanRow) : List CleanRow :=
  work.filter fun r => r.date.year == 2024

/-- One row of the forecast table (lines 181-197): forecast date and
volume together with the carried-over reference columns. -/
structure ForecastRow where
  depositId : Option String
  date2025 : Date
  depot : String
  volume2025 : ℚ
  origDate : Date
  origVolume : ℚ
deriving DecidableEq

/-- Lines 158-162: apply `shift_to_2025` to every 2024 row and drop the
rows whose shifted date is null (the Feb 29 rows). -/
def shiftStep (df2024 : List CleanRow) : List (CleanRow × Date) :=
  df2024.filterMap fun r => (shift_to_2025 (some r.date)).map fun d2 => (r, d2)

/-- Line 169: multiply each surviving row's volume by the factor at its
position in the drawn factor sequence
(`np.random.uniform(0.95, 1.15, size=len(forecast))`). -/
def scaleStep (factors : Nat → ℚ) : Nat → List (CleanRow × Date) → List ForecastRow
  | _, [] => []
  | i, (r, d2) :: rest =>
    ⟨r.depositId, d2, r.depot, r.volume * factors i, r.date, r.volume⟩ ::
      scaleStep factors (i + 1) rest

/-- Lines 158-169: the forecast transformer on the 2024 rows. -/
def forecastRows (factors : Nat → ℚ) (df2024 : List CleanRow) : List ForecastRow :=
  scaleStep factors 0 (shiftStep df2024)

/-- Strict chronological order on dates (how pandas compares Timestamps). -/
def dateLT (a b : Date) : Prop :=
  a.year < b.year ∨ (a.year = b.year ∧
    (a.month < b.month ∨ (a.month = b.month ∧ a.day < b.day)))

instance (a b : Date) : Decidable (dateLT a b) := by
  unfold dateLT; infer_instance

/-- Ordering on the optional Deposit ID key: pandas sorts NaN last
(default na_position), so `none` is the greatest element. -/
def optIdLE : Option String → Option String → Prop
  | none, none => True
  | none, some _ => False
  | some _, none => True
  | some a, some b => a ≤ b

instance (o1 o2 : Option String) : Decidable (optIdLE o1 o2) :=
  match o1, o2 with
  | none, none => isTrue trivial
  | none, some _ => isFalse fun h => h
  | some _, none => isTrue trivial
  | some a, some b => inferInstanceAs (Decidable (a ≤ b))

/-- The lexicographic sort order of lines 199-203: by forecast date, then
depot, then Deposit ID when that column is present (`hasId`). -/
def outLE (hasId : Bool) (a b : ForecastRow) : Prop :=
  dateLT a.date2025 b.date2025 ∨ (a.date2025 = b.date2025 ∧
    (a.depot < b.depot ∨ (a.depot = b.depot ∧
      (hasId = false ∨ optIdLE a.depositId b.depositId))))

instance (hasId : Bool) (a b : ForecastRow) : Decidable (outLE hasId a b) := by
  unfold outLE; infer_instance

/-- Boolean comparison handed to the sort. -/
def outLEb (hasId : Bool) (a b : ForecastRow) : Bool :=
  decide (outLE hasId a b)

/-- Line 203: `output_df.sort_values(sort_cols)`. With more than one sort
key pandas uses `np.lexsort`, a stable sort; modelled by the stable
`List.mergeSort` under the same ordering. -/
def sortOutput (hasId : Bool) (rows : List ForecastRow) : List ForecastRow :=
  rows.mergeSort (outLEb hasId)

/-- Column names of the loaded sheet. -/
inductive ColName where
  | dateCol
  | depotCol
  | volumeCol
  | depositIdCol
  | otherCol (s : String)
deriving DecidableEq

/-- The loaded table: its column set and its rows restricted to the
working columns. -/
structure LoadedDF where
  cols : List ColName
  rows : List RawRow
deriving DecidableEq

/-- Line 74: `required_cols = [DATE_COL, DEPOT_COL, VOLUME_COL]`. -/
def requiredCols : List ColName := [.dateCol, .depotCol, .volumeCol]

/-- Line 77: required columns absent from the loaded table. -/
def missingCols (df : LoadedDF) : List ColName :=
  requiredCols.filter fun c => !(df.cols.contains c)

/-- Line 84: whether the optional Deposit ID column exists. -/
def hasDepositId (df : LoadedDF) : Bool :=
  df.cols.contains ColName.depositIdCol

/-- Lines 87-93: the working rows. When the Deposit ID column is absent
it is not among the selected columns, so its cells are not carried. -/
def workRows (df : LoadedDF) : List RawRow :=
  if hasDepositId df then df.rows
  else df.rows.map fun r => { r with depositId := none }

/-- Line 136 and 172: column totals of the two tables. -/
def totalVolume2024 (l : List CleanRow) : ℚ := (l.map fun r => r.volume).sum

/-- Total of the forecast volume column. -/
def totalVolume2025 (l : List ForecastRow) : ℚ := (l.map fun r => r.volume2025).sum

/-- The whole sorted forecast table produced from a loaded table
(the data written to `forecast_2025.csv` on line 211). -/
def pipelineOutput (factors : Nat → ℚ) (df : LoadedDF) : List ForecastRow :=
  sortOutput (hasDepositId df) (forecastRows factors (filter2024 (cleanRows (workRows df))))

/-- Observable outcome of one run of `main`. -/
inductive RunOutcome where
  | schemaError (missing : List ColName) (available : List ColName)
  | summaryCrash (written : List ForecastRow)
  | ok (written : List ForecastRow) (pctChange : Option ℚ)
deriving DecidableEq

/-- The control flow of `main` (lines 46-238). After the schema check the
pipeline always runs and the file is written (line 211); the summary then
raises when a date range is taken over an empty table (lines 222 and 228,
modelled by `summaryCrash`: `.min()` of an empty datetime column is NaT
and `NaT.date()` raises). The percentage change divides by the 2024
total; numpy yields NaN (`none`) on a zero denominator rather than
raising. -/
def runMain (factors : Nat → ℚ) (df : LoadedDF) : RunOutcome :=
  if missingCols df ≠ [] then .schemaError (missingCols df) df.cols
  else
    let df2024 := filter2024 (cleanRows (workRows df))
    let out := pipelineOutput factors df
    if df2024.isEmpty || out.isEmpty then .summaryCrash out
    else
      .ok out
        (if totalVolume2024 df2024 = 0 then none
         else some ((totalVolume2025 (forecastRows factors df2024) / totalVolume2024 df2024 - 1) * 100))

/-- Render a date the way the CSV writer does. -/
def renderDate (d : Date) : String :=
  toString d.year ++ "-" ++ toString d.month ++ "-" ++ toString d.day

/-- Render one forecast row as a CSV line (Deposit ID first when its
column is present, mirroring lines 181-195). -/
def renderRow (hasId : Bool) (r : ForecastRow) : String :=
  (if hasId then (r.depositId.getD "") ++ "," else "") ++
    renderDate r.date2025 ++ "," ++ r.depot ++ "," ++ toString r.volume2025 ++ "," ++
    renderDate r.origDate ++ "," ++ toString r.origVolume

/-- The bytes of the written CSV file: header line then one line per row.
The writer itself is an opaque library call; any injective rendering of
the sorted table models it for the determinism claim. -/
def renderCsv (hasId : Bool) (rows : List ForecastRow) : String :=
  (if hasId then "Deposit ID," else "") ++
    "Date_2025,Depo,Volume_2025,Date_2024_Original,Volume_2024_Original" ++
    String.join (rows.map fun r => "\n" ++ renderRow hasId r)

/-- The file written by a run: `none` when the schema check fails before
line 211 is reached. -/
def writtenFile (factors : Nat → ℚ) (df : LoadedDF) : Option String :=
  if missingCols df ≠ [] then none
  else some (renderCsv (hasDepositId df) (pipelineOutput factors df))

/-- Lines 19-20 and the whole script: the process seeds numpy once, so
the factor sequence is a function of the seed alone; a full run is a
function of the seed and the loaded table. -/
def runProgram (prng : Nat → Nat → ℚ) (seed : Nat) (df : LoadedDF) : RunOutcome :=
  runMain (prng seed) df

/-- The file written by a full seeded run. -/
def programFile (prng : Nat → Nat → ℚ) (seed : Nat) (df : LoadedDF) : Option String :=
  writtenFile (prng seed) df

/-! ### Helper lemmas about the cleaning stage -/

theorem cleanRows_eq_filterMap (rows : List RawRow) :
    cleanRows rows = cleanRowsSpec rows := by
  induction rows with
  | nil => rfl
  | cons r rest ih =>
    obtain ⟨rid, rdate, rdepot, rvol⟩ := r
    cases rdate <;> cases rdepot <;>
      simp_all [cleanRows, cleanRowsSpec, dropnaDateDepot, dropnaDate, toDatetimeStep,
        DateCell.isNaN, DateCell.toDatetime, List.filter_cons, List.filterMap_cons]

theorem mem_cleanRows {c : CleanRow} {rows : List RawRow} :
    c ∈ cleanRows rows ↔
      ∃ r ∈ rows, ∃ d : Date, r.date = .value d ∧ r.depot = some c.depot ∧
        c = ⟨r.depositId, d, c.depot, r.volume.toNumericFilled⟩ := by
  rw [cleanRows_eq_filterMap]
  unfold cleanRowsSpec
  rw [List.mem_filterMap]
  constructor
  · rintro ⟨r, hr, hmatch⟩
    refine ⟨r, hr, ?_⟩
    rcases hd : r.date with _ | _ | d <;> rcases hp : r.depot with _ | s <;>
      rw [hd, hp] at hmatch <;> simp at hmatch
    subst hmatch
    exact ⟨d, rfl, rfl, rfl⟩
  · rintro ⟨r, hr, d, hd, hp, hc⟩
    refine ⟨r, hr, ?_⟩
    rw [hd, hp]
    rw [hc]

/-! ### C7: what the cleaner drops and coerces -/

/-- C7: the cleaner drops exactly the rows whose date or depot is missing
and the rows whose date is unparseable; every surviving row keeps its
fields, with a non-numeric or missing volume coerced to 0 rather than the
row being dropped; no other rows are removed. (`cleanRowsSpec` is the
claim's restatement as a single filter over the raw rows.) -/
theorem clean_drops_exactly (rows : List RawRow) :
    cleanRows rows = cleanRowsSpec rows :=
  cleanRows_eq_filterMap rows

/-! ### C9: post-cleaning invariant on volumes -/

/-- C9 counterexample: it is not true that every cleaned row of every raw
table has a non-negative volume — a raw row whose volume cell holds a
negative number survives cleaning with its negative volume intact. -/
theorem clean_volume_nonneg_ce :
    ¬ ∀ (rows : List RawRow), ∀ c ∈ cleanRows rows, 0 ≤ c.volume := by
  intro h
  have h1 := h [⟨none, .value ⟨2024, 1, 1⟩, some "A", .numeric (-1)⟩]
    ⟨none, ⟨2024, 1, 1⟩, "A", -1⟩ (by decide)
  norm_num at h1

/-- C9 amended: after cleaning, every row has a parsed date, a non-null
depot and a numeric (hence finite) volume by construction, and the volume
is non-negative provided every numeric volume cell of the raw input is
non-negative (missing and non-numeric cells are coerced to 0). -/
theorem clean_volume_nonneg_of_nonneg_input (rows : List RawRow)
    (h : ∀ r ∈ rows, ∀ q : ℚ, r.volume = .numeric q → 0 ≤ q) :
    ∀ c ∈ cleanRows rows, 0 ≤ c.volume := by
  intro c hc
  rcases mem_cleanRows.mp hc with ⟨r, hr, d, _, _, hc'⟩
  rw [hc']
  rcases hv : r.volume with _ | _ | q <;> simp [VolumeCell.toNumericFilled]
  exact h r hr q hv

/-- C9 amended, witness: in a concrete raw table with non-negative
numeric volumes, the cleaned row derived from the first raw row has a
non-negative volume. -/
theorem clean_volume_nonneg_of_nonneg_input_witness :
    (0 : ℚ) ≤ (⟨some "D1", ⟨2024, 1, 1⟩, "A", 3⟩ : CleanRow).volume :=
  clean_volume_nonneg_of_nonneg_input
    [⟨some "D1", .value ⟨2024, 1, 1⟩, some "A", .numeric 3⟩,
      ⟨none, .value ⟨2024, 1, 2⟩, some "B", .nonNumeric⟩]
    (by
      intro r hr q hq
      fin_cases hr <;> simp_all
      linarith)
    ⟨some "D1", ⟨2024, 1, 1⟩, "A", 3⟩
    (by
      rw [show cleanRows [⟨some "D1", .value ⟨2024, 1, 1⟩, some "A", .numeric 3⟩,
          ⟨none, .value ⟨2024, 1, 2⟩, some "B", .nonNumeric⟩] =
        [⟨some "D1", ⟨2024, 1, 1⟩, "A", 3⟩, ⟨none, ⟨2024, 1, 2⟩, "B", 0⟩] from rfl]
      exact List.mem_cons_self _ _)

/-! ### Helper lemmas about the date shift and the forecast transformer -/

theorem daysInMonth_eq_of_ne_two {m : Nat} (h : m ≠ 2) (y y' : Nat) :
    daysInMonth y m = daysInMonth y' m := by
  unfold daysInMonth
  rw [if_neg h, if_neg h]

theorem timestampValid_2025_of_2024 {d : Date} (hv : d.valid = true)
    (hy : d.year = 2024) (hno : ¬(d.month = 2 ∧ d.day = 29)) :
    timestampValid 2025 d.month d.day = true := by
  unfold Date.valid at hv
  rw [hy] at hv
  simp only [timestampValid, Bool.and_eq_true, decide_eq_true_eq] at hv ⊢
  obtain ⟨⟨⟨h1, h2⟩, h3⟩, h4⟩ := hv
  refine ⟨⟨⟨h1, h2⟩, h3⟩, ?_⟩
  by_cases hm : d.month = 2
  · rw [hm] at h4 ⊢
    have h29 : daysInMonth 2024 2 = 29 := by decide
    have h28 : daysInMonth 2025 2 = 28 := by decide
    rw [h28]
    rw [h29] at h4
    have : d.day ≠ 29 := fun hd => hno ⟨hm, hd⟩
    omega
  · rw [daysInMonth_eq_of_ne_two hm 2025 2024]
    exact h4

theorem shift_to_2025_feb29 {d : Date} (h : d.month = 2 ∧ d.day = 29) :
    shift_to_2025 (some d) = none := by
  simp only [shift_to_2025]
  rw [if_pos h]

theorem shift_to_2025_of_valid_2024 {d : Date} (hv : d.valid = true)
    (hy : d.year = 2024) (hno : ¬(d.month = 2 ∧ d.day = 29)) :
    shift_to_2025 (some d) = some ⟨2025, d.month, d.day⟩ := by
  simp only [shift_to_2025]
  rw [if_neg hno, if_pos (timestampValid_2025_of_2024 hv hy hno)]

theorem mem_shiftStep {p : CleanRow × Date} {l : List CleanRow} :
    p ∈ shiftStep l ↔ ∃ r ∈ l, shift_to_2025 (some r.date) = some p.2 ∧ p.1 = r := by
  unfold shiftStep
  rw [List.mem_filterMap]
  constructor
  · rintro ⟨r, hr, hf⟩
    rcases Option.map_eq_some'.mp hf with ⟨d2, hshift, hpair⟩
    subst hpair
    exact ⟨r, hr, hshift, rfl⟩
  · rintro ⟨r, hr, hshift, hfst⟩
    refine ⟨r, hr, ?_⟩
    rw [hshift]
    obtain ⟨p1, p2⟩ := p
    simp at hfst
    rw [hfst]
    rfl

theorem mem_scaleStep {factors : Nat → ℚ} {fr : ForecastRow} :
    ∀ {i : Nat} {l : List (CleanRow × Date)}, fr ∈ scaleStep factors i l →
      ∃ j, ∃ p ∈ l,
        fr = ⟨p.1.depositId, p.2, p.1.depot, p.1.volume * factors j, p.1.date, p.1.volume⟩ := by
  intro i l
  induction l generalizing i with
  | nil => intro h; simp [scaleStep] at h
  | cons p rest ih =>
    obtain ⟨r, d2⟩ := p
    intro h
    rw [scaleStep] at h
    rcases List.mem_cons.mp h with h1 | h1
    · exact ⟨i, (r, d2), List.mem_cons_self _ _, h1⟩
    · rcases ih h1 with ⟨j, q, hq, hfr⟩
      exact ⟨j, q, List.mem_cons_of_mem _ hq, hfr⟩

theorem mem_forecastRows {factors : Nat → ℚ} {l : List CleanRow} {fr : ForecastRow}
    (h : fr ∈ forecastRows factors l) :
    ∃ j, ∃ r ∈ l, ∃ d2 : Date, shift_to_2025 (some r.date) = some d2 ∧
      fr = ⟨r.depositId, d2, r.depot, r.volume * factors j, r.date, r.volume⟩ := by
  rcases mem_scaleStep h with ⟨j, p, hp, hfr⟩
  rcases mem_shiftStep.mp hp with ⟨r, hr, hshift, hfst⟩
  refine ⟨j, r, hr, p.2, hshift, ?_⟩
  rw [hfr, hfst]

/-! ### C1: date shift to 2025 -/

/-- C1: on any table of valid base-year (2024) rows, the shift maps each
date to the same month and day in 2025, except February 29 which yields
no output row; hence every forecast row's date lies in 2025, is never
Feb 29, and keeps the original month and day. -/
theorem shift_preserves_month_day_2025 (factors : Nat → ℚ) (l : List CleanRow)
    (hl : ∀ r ∈ l, r.date.year = 2024 ∧ r.date.valid = true) :
    (∀ r ∈ l,
      ((r.date.month = 2 ∧ r.date.day = 29) → shift_to_2025 (some r.date) = none) ∧
      (¬(r.date.month = 2 ∧ r.date.day = 29) →
        shift_to_2025 (some r.date) = some ⟨2025, r.date.month, r.date.day⟩)) ∧
    (∀ fr ∈ forecastRows factors l,
      fr.date2025.year = 2025 ∧ ¬(fr.date2025.month = 2 ∧ fr.date2025.day = 29) ∧
      fr.date2025.month = fr.origDate.month ∧ fr.date2025.day = fr.origDate.day) := by
  constructor
  · intro r hr
    obtain ⟨hy, hv⟩ := hl r hr
    exact ⟨fun h => shift_to_2025_feb29 h, fun hno => shift_to_2025_of_valid_2024 hv hy hno⟩
  · intro fr hfr
    rcases mem_forecastRows hfr with ⟨j, r, hr, d2, hshift, hfr'⟩
    obtain ⟨hy, hv⟩ := hl r hr
    by_cases hno : r.date.month = 2 ∧ r.date.day = 29
    · rw [shift_to_2025_feb29 hno] at hshift
      cases hshift
    · rw [shift_to_2025_of_valid_2024 hv hy hno] at hshift
      rcases Option.some.injEq .. ▸ hshift with h2
      rw [hfr']
      rw [← h2]
      refine ⟨rfl, ?_, rfl, rfl⟩
      simpa using hno

/-- C1 witness: on the spec's own example table (a Feb 29 row and a
Mar 1 row of 2024) the Feb 29 date yields no row and Mar 1 maps to
2025-03-01. -/
theorem shift_preserves_month_day_2025_witness :
    shift_to_2025 (some ⟨2024, 2, 29⟩) = none ∧
    shift_to_2025 (some ⟨2024, 3, 1⟩) = some ⟨2025, 3, 1⟩ := by
  have h := shift_preserves_month_day_2025 (fun _ => 1)
    [⟨none, ⟨2024, 2, 29⟩, "A", 100⟩, ⟨none, ⟨2024, 3, 1⟩, "B", 200⟩] (by decide)
  exact ⟨(h.1 ⟨none, ⟨2024, 2, 29⟩, "A", 100⟩ (by decide)).1 (by decide),
    (h.1 ⟨none, ⟨2024, 3, 1⟩, "B", 200⟩ (by decide)).2 (by decide)⟩

/-! ### C2: volume scaling -/

/-- C2: whenever every drawn factor lies in [0.95, 1.15] (the range of
`np.random.uniform(0.95, 1.15)`), every forecast row's volume equals its
original volume times a factor in that interval; hence the ratio lies in
[0.95, 1.15] for rows with nonzero original volume and the forecast
volume is 0 whenever the original volume is 0, regardless of the factor. -/
theorem forecast_volume_scaling (factors : Nat → ℚ) (l : List CleanRow)
    (hf : ∀ i, (0.95 : ℚ) ≤ factors i ∧ factors i ≤ 1.15) :
    ∀ fr ∈ forecastRows factors l,
      (∃ f : ℚ, 0.95 ≤ f ∧ f ≤ 1.15 ∧ fr.volume2025 = fr.origVolume * f) ∧
      (fr.origVolume = 0 → fr.volume2025 = 0) ∧
      (fr.origVolume ≠ 0 →
        0.95 ≤ fr.volume2025 / fr.origVolume ∧ fr.volume2025 / fr.origVolume ≤ 1.15) := by
  intro fr hfr
  rcases mem_forecastRows hfr with ⟨j, r, hr, d2, hshift, hfr'⟩
  obtain ⟨h1, h2⟩ := hf j
  subst hfr'
  refine ⟨⟨factors j, h1, h2, rfl⟩, ?_, ?_⟩
  · intro h0
    show r.volume * factors j = 0
    rw [show r.volume = 0 from h0, zero_mul]
  · intro hne
    have hne' : r.volume ≠ 0 := hne
    show (0.95 : ℚ) ≤ r.volume * factors j / r.volume ∧ r.volume * factors j / r.volume ≤ 1.15
    rw [mul_div_cancel_left₀ (factors j) hne']
    exact ⟨h1, h2⟩

/-- C2 witness: a concrete 2024 row with volume 100 and the constant
factor 1 gives a forecast/original ratio inside [0.95, 1.15]. -/
theorem forecast_volume_scaling_witness :
    (0.95 : ℚ) ≤ (100 * 1 : ℚ) / 100 ∧ (100 * 1 : ℚ) / 100 ≤ 1.15 := by
  have h := forecast_volume_scaling (fun _ => 1)
    [⟨none, ⟨2024, 3, 1⟩, "B", 100⟩] (fun i => by norm_num)
  exact (h ⟨none, ⟨2025, 3, 1⟩, "B", 100 * 1, ⟨2024, 3, 1⟩, 100⟩ (by
    rw [show forecastRows (fun _ => 1) [⟨none, ⟨2024, 3, 1⟩, "B", 100⟩] =
      [⟨none, ⟨2025, 3, 1⟩, "B", 100 * 1, ⟨2024, 3, 1⟩, 100⟩] from rfl]
    exact List.mem_singleton_self _)).2.2 (by norm_num)

/-! ### C4: row count of the forecast table -/

theorem length_scaleStep (factors : Nat → ℚ) :
    ∀ (i : Nat) (l : List (CleanRow × Date)), (scaleStep factors i l).length = l.length := by
  intro i l
  induction l generalizing i with
  | nil => rfl
  | cons p rest ih =>
    obtain ⟨r, d2⟩ := p
    rw [scaleStep]
    simp [ih]

theorem length_shiftStep_of_valid (l : List CleanRow)
    (hl : ∀ r ∈ l, r.date.year = 2024 ∧ r.date.valid = true) :
    (shiftStep l).length =
      l.length - l.countP (fun r => r.date.month == 2 && r.date.day == 29) := by
  induction l with
  | nil => rfl
  | cons r rest ih =>
    have hcount : rest.countP (fun r => r.date.month == 2 && r.date.day == 29) ≤
        rest.length := List.countP_le_length _
    obtain ⟨hy, hv⟩ := hl r (List.mem_cons_self _ _)
    have ihrest := ih fun r hr => hl r (List.mem_cons_of_mem _ hr)
    rw [List.countP_cons]
    by_cases h29 : r.date.month = 2 ∧ r.date.day = 29
    · have hfa : shiftStep (r :: rest) = shiftStep rest := by
        unfold shiftStep
        rw [List.filterMap_cons, shift_to_2025_feb29 h29]
        rfl
      have hb : (r.date.month == 2 && r.date.day == 29) = true := by
        simp [h29.1, h29.2]
      rw [hfa, ihrest, hb]
      simp only [List.length_cons]
      simp
    · have hfa : shiftStep (r :: rest) =
          (r, ⟨2025, r.date.month, r.date.day⟩) :: shiftStep rest := by
        unfold shiftStep
        rw [List.filterMap_cons, shift_to_2025_of_valid_2024 hv hy h29]
        rfl
      have hb : (r.date.month == 2 && r.date.day == 29) = false := by
        apply Bool.eq_false_iff.mpr
        intro hb
        simp only [Bool.and_eq_true, beq_iff_eq] at hb
        exact h29 ⟨hb.1, hb.2⟩
      rw [hb]
      simp only [List.length_cons, hfa]
      rw [ihrest, if_neg Bool.false_ne_true]
      omega

/-- C4: on any table of valid base-year (2024) rows, the forecast table
has exactly as many rows as the base table minus its February 29 rows;
the date-shift step loses or adds no other rows. -/
theorem forecast_row_count (factors : Nat → ℚ) (l : List CleanRow)
    (hl : ∀ r ∈ l, r.date.year = 2024 ∧ r.date.valid = true) :
    (forecastRows factors l).length =
      l.length - l.countP (fun r => r.date.month == 2 && r.date.day == 29) := by
  unfold forecastRows
  rw [length_scaleStep, length_shiftStep_of_valid l hl]

/-- C4 witness: of two 2024 rows, one dated Feb 29, exactly one forecast
row survives. -/
theorem forecast_row_count_witness :
    (forecastRows (fun _ => 1)
      [⟨none, ⟨2024, 2, 29⟩, "A", 100⟩, ⟨none, ⟨2024, 3, 1⟩, "B", 200⟩]).length = 1 := by
  have h := forecast_row_count (fun _ => 1)
    [⟨none, ⟨2024, 2, 29⟩, "A", 100⟩, ⟨none, ⟨2024, 3, 1⟩, "B", 200⟩] (by decide)
  exact h.trans (by decide)

/-! ### C3: year-gap detection -/

theorem mem_depotsInYear {s : String} {work : List CleanRow} {y : Nat} :
    s ∈ depotsInYear work y ↔ ∃ r ∈ work, r.date.year = y ∧ r.depot = s := by
  unfold depotsInYear
  simp only [List.mem_toFinset, List.mem_map, List.mem_filter, beq_iff_eq]
  constructor
  · rintro ⟨r, ⟨h1, h2⟩, h3⟩
    exact ⟨r, h1, h2, h3⟩
  · rintro ⟨r, h1, h2, h3⟩
    exact ⟨r, ⟨h1, h2⟩, h3⟩

/-- C3: the reported year-gap set holds exactly the depots with at least
one cleaned row in 2023 and none in 2024; it is empty precisely when
every 2023 depot reappears in 2024; and no gap depot ever occurs in the
forecast output, since the forecast is built from the year-2024 filter. -/
theorem year_gap_detection (factors : Nat → ℚ) (work : List CleanRow) :
    (∀ s : String, s ∈ missing_depots work ↔
      ((∃ r ∈ work, r.date.year = 2023 ∧ r.depot = s) ∧
        ¬ ∃ r ∈ work, r.date.year = 2024 ∧ r.depot = s)) ∧
    (missing_depots work = ∅ ↔ depotsInYear work 2023 ⊆ depotsInYear work 2024) ∧
    (∀ s ∈ missing_depots work, ∀ fr ∈ forecastRows factors (filter2024 work),
      fr.depot ≠ s) := by
  refine ⟨?_, ?_, ?_⟩
  · intro s
    unfold missing_depots
    rw [Finset.mem_sdiff, mem_depotsInYear, mem_depotsInYear]
  · unfold missing_depots
    exact Finset.sdiff_eq_empty_iff_subset
  · intro s hs fr hfr
    rcases mem_forecastRows hfr with ⟨j, r, hr, d2, hshift, hfr'⟩
    rcases List.mem_filter.mp hr with ⟨hrw, hyr⟩
    have h24 : r.depot ∈ depotsInYear work 2024 :=
      mem_depotsInYear.mpr ⟨r, hrw, by simpa using hyr, rfl⟩
    rcases Finset.mem_sdiff.mp hs with ⟨h23, hnot24⟩
    intro he
    apply hnot24
    rw [hfr'] at he
    have he' : r.depot = s := he
    rw [← he']
    exact h24

/-- C3 witness: with depot C active only in 2023 and depot B in 2024, the
single forecast row (built from the 2024 row) does not reference C. -/
theorem year_gap_detection_witness :
    (⟨none, ⟨2025, 3, 1⟩, "B", 200 * 1, ⟨2024, 3, 1⟩, 200⟩ : ForecastRow).depot ≠ "C" := by
  have h := year_gap_detection (fun _ => 1)
    [⟨none, ⟨2023, 5, 1⟩, "C", 10⟩, ⟨none, ⟨2024, 3, 1⟩, "B", 200⟩]
  refine h.2.2 "C" (by decide) _ ?_
  rw [show forecastRows (fun _ => 1)
      (filter2024 [⟨none, ⟨2023, 5, 1⟩, "C", 10⟩, ⟨none, ⟨2024, 3, 1⟩, "B", 200⟩]) =
      [⟨none, ⟨2025, 3, 1⟩, "B", 200 * 1, ⟨2024, 3, 1⟩, 200⟩] from rfl]
  exact List.mem_singleton_self _

/-! ### C5: sorting of the output table -/

theorem dateLT_trans {a b c : Date} (h1 : dateLT a b) (h2 : dateLT b c) : dateLT a c := by
  unfold dateLT at *
  omega

theorem dateLT_total (a b : Date) : dateLT a b ∨ a = b ∨ dateLT b a := by
  obtain ⟨y1, m1, d1⟩ := a
  obtain ⟨y2, m2, d2⟩ := b
  unfold dateLT
  simp only [Date.mk.injEq]
  omega

theorem optIdLE_trans : ∀ {o1 o2 o3 : Option String},
    optIdLE o1 o2 → optIdLE o2 o3 → optIdLE o1 o3 := by
  intro o1 o2 o3 h1 h2
  cases o1 <;> cases o2 <;> cases o3 <;>
    simp_all [optIdLE]
  exact le_trans h1 h2

theorem optIdLE_total : ∀ o1 o2 : Option String, optIdLE o1 o2 ∨ optIdLE o2 o1 := by
  intro o1 o2
  cases o1 <;> cases o2 <;> simp_all [optIdLE]
  exact le_total _ _

theorem outLE_trans {hasId : Bool} {a b c : ForecastRow}
    (h1 : outLE hasId a b) (h2 : outLE hasId b c) : outLE hasId a c := by
  unfold outLE at *
  rcases h1 with h1 | ⟨e1, h1⟩ <;> rcases h2 with h2 | ⟨e2, h2⟩
  · exact Or.inl (dateLT_trans h1 h2)
  · exact Or.inl (e2 ▸ h1)
  · exact Or.inl (by rw [e1]; exact h2)
  · right
    refine ⟨e1.trans e2, ?_⟩
    rcases h1 with h1 | ⟨f1, h1⟩ <;> rcases h2 with h2 | ⟨f2, h2⟩
    · exact Or.inl (lt_trans h1 h2)
    · exact Or.inl (f2 ▸ h1)
    · exact Or.inl (by rw [f1]; exact h2)
    · right
      refine ⟨f1.trans f2, ?_⟩
      rcases h1 with h1 | h1
      · exact Or.inl h1
      rcases h2 with h2 | h2
      · exact Or.inl h2
      · exact Or.inr (optIdLE_trans h1 h2)

theorem outLE_total (hasId : Bool) (a b : ForecastRow) :
    outLE hasId a b ∨ outLE hasId b a := by
  unfold outLE
  rcases dateLT_total a.date2025 b.date2025 with h | h | h
  · exact Or.inl (Or.inl h)
  · rcases lt_trichotomy a.depot b.depot with hs | hs | hs
    · exact Or.inl (Or.inr ⟨h, Or.inl hs⟩)
    · cases hasId with
      | false => exact Or.inl (Or.inr ⟨h, Or.inr ⟨hs, Or.inl rfl⟩⟩)
      | true =>
        rcases optIdLE_total a.depositId b.depositId with ho | ho
        · exact Or.inl (Or.inr ⟨h, Or.inr ⟨hs, Or.inr ho⟩⟩)
        · exact Or.inr (Or.inr ⟨h.symm, Or.inr ⟨hs.symm, Or.inr ho⟩⟩)
    · exact Or.inr (Or.inr ⟨h.symm, Or.inl hs⟩)
  · exact Or.inr (Or.inl h)

theorem outLEb_trans (hasId : Bool) : ∀ a b c : ForecastRow,
    outLEb hasId a b → outLEb hasId b c → outLEb hasId a c := by
  intro a b c h1 h2
  exact decide_eq_true (outLE_trans (of_decide_eq_true h1) (of_decide_eq_true h2))

theorem outLEb_total (hasId : Bool) : ∀ a b : ForecastRow,
    outLEb hasId a b || outLEb hasId b a := by
  intro a b
  rcases outLE_total hasId a b with h | h <;> simp [outLEb, h]

theorem outLE_of_keys_eq {hasId : Bool} {a b : ForecastRow}
    (h1 : a.date2025 = b.date2025) (h2 : a.depot = b.depot)
    (h3 : a.depositId = b.depositId) : outLE hasId a b := by
  unfold outLE
  refine Or.inr ⟨h1, Or.inr ⟨h2, ?_⟩⟩
  cases hasId with
  | false => exact Or.inl rfl
  | true =>
    rw [h3]
    right
    cases b.depositId <;> simp [optIdLE]

/-- C5: the written forecast table is sorted ascending in the
lexicographic (forecast date, depot, deposit id) order, is a permutation
of the assembled forecast rows, and rows equal on all sort keys keep
their original relative order (stability of the multi-key sort). -/
theorem output_sorted_stable (hasId : Bool) (rows : List ForecastRow) :
    (sortOutput hasId rows).Pairwise (fun a b => outLE hasId a b) ∧
    (sortOutput hasId rows).Perm rows ∧
    (∀ a b : ForecastRow,
      a.date2025 = b.date2025 → a.depot = b.depot → a.depositId = b.depositId →
      List.Sublist [a, b] rows → List.Sublist [a, b] (sortOutput hasId rows)) := by
  refine ⟨?_, List.mergeSort_perm rows _, ?_⟩
  · exact (List.sorted_mergeSort (outLEb_trans hasId) (outLEb_total hasId) rows).imp
      fun h => of_decide_eq_true h
  · intro a b h1 h2 h3 hsub
    exact List.pair_sublist_mergeSort (outLEb_trans hasId) (outLEb_total hasId)
      (decide_eq_true (outLE_of_keys_eq h1 h2 h3)) hsub

/-- C5 witness: two rows with identical sort keys but different reference
volumes keep their original order through the sort. -/
theorem output_sorted_stable_witness :
    List.Sublist
      [(⟨some "D", ⟨2025, 3, 1⟩, "B", 5, ⟨2024, 3, 1⟩, 5⟩ : ForecastRow),
        ⟨some "D", ⟨2025, 3, 1⟩, "B", 7, ⟨2024, 3, 1⟩, 7⟩]
      (sortOutput true
        [⟨some "D", ⟨2025, 3, 1⟩, "B", 5, ⟨2024, 3, 1⟩, 5⟩,
          ⟨some "D", ⟨2025, 3, 1⟩, "B", 7, ⟨2024, 3, 1⟩, 7⟩]) :=
  (output_sorted_stable true _).2.2 _ _ rfl rfl rfl (List.Sublist.refl _)

/-! ### C6: the schema check halts the run before any output -/

/-- C6: when at least one required column is absent, the run ends in the
schema-error outcome carrying exactly the missing and the available
column names, no transformation outcome is produced and no file is
written; conversely a file is written only when all required columns are
present. -/
theorem schema_check_halts (factors : Nat → ℚ) (df : LoadedDF) :
    (missingCols df ≠ [] →
      runMain factors df = .schemaError (missingCols df) df.cols ∧
      writtenFile factors df = none) ∧
    (writtenFile factors df ≠ none → missingCols df = []) := by
  constructor
  · intro h
    unfold runMain writtenFile
    rw [if_pos h, if_pos h]
    exact ⟨rfl, rfl⟩
  · intro h
    by_contra hne
    unfold writtenFile at h
    rw [if_pos hne] at h
    exact h rfl

/-- C6 witness: a table lacking the date column produces the
schema-error outcome naming it, and no file. -/
theorem schema_check_halts_witness :
    runMain (fun _ => 1) ⟨[ColName.depotCol, ColName.volumeCol], []⟩ =
      RunOutcome.schemaError [ColName.dateCol] [ColName.depotCol, ColName.volumeCol] ∧
    writtenFile (fun _ => 1) ⟨[ColName.depotCol, ColName.volumeCol], []⟩ = none :=
  (schema_check_halts (fun _ => 1) ⟨[ColName.depotCol, ColName.volumeCol], []⟩).1
    (by decide)

/-! ### C8: determinism of a seeded run -/

/-- C8: the generator is seeded once at process start, so the factor
sequence is a function of the seed alone; two runs with the same seed on
the same loaded table draw the identical factor sequence, reach the same
outcome and write byte-identical file contents. -/
theorem seeded_run_deterministic (prng : Nat → Nat → ℚ) (seed1 seed2 : Nat)
    (df1 df2 : LoadedDF) (hseed : seed1 = seed2) (hdf : df1 = df2) :
    prng seed1 = prng seed2 ∧
    runProgram prng seed1 df1 = runProgram prng seed2 df2 ∧
    programFile prng seed1 df1 = programFile prng seed2 df2 := by
  subst hseed
  subst hdf
  exact ⟨rfl, rfl, rfl⟩

/-- C8 witness: a concrete repeated run with seed 42 on a one-row table
yields identical file bytes. -/
theorem seeded_run_deterministic_witness :
    programFile (fun _ _ => 1) 42
      ⟨[ColName.dateCol, ColName.depotCol, ColName.volumeCol],
        [⟨none, .value ⟨2024, 3, 1⟩, some "B", .numeric 200⟩]⟩ =
    programFile (fun _ _ => 1) 42
      ⟨[ColName.dateCol, ColName.depotCol, ColName.volumeCol],
        [⟨none, .value ⟨2024, 3, 1⟩, some "B", .numeric 200⟩]⟩ :=
  (seeded_run_deterministic (fun _ _ => 1) 42 42 _ _ rfl rfl).2.2

/-! ### C10: behaviour on an empty base year -/

/-- C10: when the cleaned table has no 2024 rows (and the schema check
passed), the run does not complete normally: the written table is empty,
the 2024 total is 0 so the percentage change divides by zero (numpy
yields NaN, unguarded), and the summary's date-range computation takes
the minimum of an empty datetime column, whose NaT raises on `.date()`,
terminating the program abnormally — modelled by the `summaryCrash`
outcome in place of `ok`. -/
theorem empty_base_year_crashes (factors : Nat → ℚ) (df : LoadedDF)
    (hschema : missingCols df = [])
    (hempty : filter2024 (cleanRows (workRows df)) = []) :
    runMain factors df = .summaryCrash [] ∧
    totalVolume2024 (filter2024 (cleanRows (workRows df))) = 0 := by
  have hout : pipelineOutput factors df = [] := by
    unfold pipelineOutput sortOutput
    rw [hempty]
    rw [show forecastRows factors [] = [] from rfl]
    exact List.mergeSort_nil
  constructor
  · unfold runMain
    rw [if_neg (not_ne_iff.mpr hschema)]
    simp [hout, hempty]
  · rw [hempty]
    rfl

/-- C10 witness: with all required columns present but zero rows, the
run crashes in the summary instead of reporting an empty forecast. -/
theorem empty_base_year_crashes_witness :
    runMain (fun _ => 1) ⟨[ColName.dateCol, ColName.depotCol, ColName.volumeCol], []⟩ =
      RunOutcome.summaryCrash [] :=
  (empty_base_year_crashes (fun _ => 1)
    ⟨[ColName.dateCol, ColName.depotCol, ColName.volumeCol], []⟩ rfl rfl).1

end Forecast2025
